import Mathlib

/-!
Verification development for the browser transcription front-end
(Session Orchestrator, Audio Capture Unit, Cloud Transcription Client,
Local Transcription Client).  Each TypeScript function relevant to the
testable properties of the specification is shallowly embedded as an
executable Lean definition, and the properties are settled as theorems
further below.
-/

/-- JSON values, the shape produced by the platform JSON.parse.
Numbers are restricted to integers: every JSON document exchanged by the
cloud client consists of strings, arrays and objects only. -/
inductive Json where
  | null : Json
  | bool (b : Bool) : Json
  | num (n : Int) : Json
  | str (s : String) : Json
  | arr (elems : List Json) : Json
  | obj (fields : List (String × Json)) : Json

/-- Model of JSON whitespace skipping. -/
def skipWs : List Char → List Char
  | [] => []
  | c :: rest =>
    if c = ' ' ∨ c = '\n' ∨ c = '\t' ∨ c = '\r' then skipWs rest else c :: rest

/-- Parse the body of a JSON string literal (opening quote already
consumed); returns the decoded characters and the remaining input. -/
def parseStringChars : List Char → Option (List Char × List Char)
  | [] => none
  | c :: rest =>
    if c = '"' then some ([], rest)
    else if c = '\\' then
      match rest with
      | [] => none
      | e :: rest2 =>
        let decoded := if e = 'n' then '\n' else if e = 't' then '\t'
          else if e = 'r' then '\r' else e
        match parseStringChars rest2 with
        | some (acc, rem) => some (decoded :: acc, rem)
        | none => none
    else
      match parseStringChars rest with
      | some (acc, rem) => some (c :: acc, rem)
      | none => none

/-- Take a maximal run of decimal digits. -/
def takeDigits : List Char → (List Char × List Char)
  | [] => ([], [])
  | c :: rest =>
    if c.isDigit then
      let (ds, rem) := takeDigits rest
      (c :: ds, rem)
    else ([], c :: rest)

/-- Decimal value of a digit run. -/
def digitsToNat (ds : List Char) : Nat :=
  ds.foldl (fun acc c => acc * 10 + (c.toNat - 48)) 0

/-- Parse an integer JSON number. -/
def parseNumber (s : List Char) : Option (Int × List Char) :=
  match s with
  | '-' :: rest =>
    let (ds, rem) := takeDigits rest
    if ds = [] then none else some (-(digitsToNat ds : Int), rem)
  | _ =>
    let (ds, rem) := takeDigits s
    if ds = [] then none else some ((digitsToNat ds : Int), rem)

/-- Drop an expected literal character sequence, failing on mismatch. -/
def dropLit : List Char → List Char → Option (List Char)
  | [], rest => some rest
  | _ :: _, [] => none
  | l :: ls, c :: cs => if c = l then dropLit ls cs else none

mutual

/-- Fuel-bounded recursive-descent parser for a JSON value. -/
def parseVal : Nat → List Char → Option (Json × List Char)
  | 0, _ => none
  | Nat.succ fuel, s =>
    match skipWs s with
    | [] => none
    | c :: rest =>
      if c = '"' then
        match parseStringChars rest with
        | some (cs, rem) => some (.str (String.mk cs), rem)
        | none => none
      else if c = '\x7b' then parseObjBody fuel (skipWs rest)
      else if c = '[' then parseArrBody fuel (skipWs rest)
      else if c = 't' then (dropLit ['r', 'u', 'e'] rest).map (fun r => (.bool true, r))
      else if c = 'f' then (dropLit ['a', 'l', 's', 'e'] rest).map (fun r => (.bool false, r))
      else if c = 'n' then (dropLit ['u', 'l', 'l'] rest).map (fun r => (.null, r))
      else
        match parseNumber (c :: rest) with
        | some (n, rem) => some (.num n, rem)
        | none => none

/-- Parse the contents of a JSON array (opening bracket consumed). -/
def parseArrBody : Nat → List Char → Option (Json × List Char)
  | 0, _ => none
  | Nat.succ fuel, s =>
    match s with
    | ']' :: rest => some (.arr [], rest)
    | _ => (parseArrItems fuel s).map (fun p => (.arr p.1, p.2))

/-- Parse one or more comma-separated array elements up to the closing
bracket. -/
def parseArrItems : Nat → List Char → Option (List Json × List Char)
  | 0, _ => none
  | Nat.succ fuel, s =>
    match parseVal fuel s with
    | none => none
    | some (v, rem) =>
      match skipWs rem with
      | ',' :: rest => (parseArrItems fuel (skipWs rest)).map (fun p => (v :: p.1, p.2))
      | ']' :: rest => some ([v], rest)
      | _ => none

/-- Parse the contents of a JSON object (opening brace consumed). -/
def parseObjBody : Nat → List Char → Option (Json × List Char)
  | 0, _ => none
  | Nat.succ fuel, s =>
    match s with
    | '\x7d' :: rest => some (.obj [], rest)
    | _ => (parseObjItems fuel s).map (fun p => (.obj p.1, p.2))

/-- Parse one or more comma-separated key-value pairs up to the closing
brace. -/
def parseObjItems : Nat → List Char → Option (List (String × Json) × List Char)
  | 0, _ => none
  | Nat.succ fuel, s =>
    match skipWs s with
    | '"' :: rest =>
      match parseStringChars rest with
      | none => none
      | some (kcs, rem) =>
        match skipWs rem with
        | ':' :: rest2 =>
          match parseVal fuel (skipWs rest2) with
          | none => none
          | some (v, rem2) =>
            match skipWs rem2 with
            | ',' :: rest3 => (parseObjItems fuel rest3).map (fun p => ((String.mk kcs, v) :: p.1, p.2))
            | '\x7d' :: rest3 => some ([(String.mk kcs, v)], rest3)
            | _ => none
        | _ => none
    | _ => none

end

/-- Model of the platform JSON.parse: succeeds exactly when the whole
input is one well-formed JSON document. -/
def parseJson (text : String) : Option Json :=
  let cs := text.data
  match parseVal (4 * cs.length + 8) cs with
  | some (v, rem) => if skipWs rem = [] then some v else none
  | none => none

/-- Object field lookup on a parsed JSON value. -/
def Json.getField (j : Json) (key : String) : Option Json :=
  match j with
  | .obj fields => fields.lookup key
  | _ => none

/-- The elements of a JSON array, when the value is an array. -/
def Json.arrElems (j : Json) : Option (List Json) :=
  match j with
  | .arr elems => some elems
  | _ => none

/-- Emotion enum (types.ts). -/
inductive Emotion where
  | Happy
  | Sad
  | Angry
  | Neutral
deriving DecidableEq

/-- TranscriptionSegment interface (types.ts). -/
structure TranscriptionSegment where
  speaker : String
  timestamp : String
  content : String
  language : String
  language_code : String
  translation : Option String
  emotion : Option Emotion
deriving DecidableEq

/-- TranscriptionResponse interface (types.ts). -/
structure TranscriptionResponse where
  summary : String
  segments : List TranscriptionSegment
deriving DecidableEq

/-- AppState union type (types.ts); loading_model appears in the
dual-engine variant only. -/
inductive AppState where
  | idle
  | recording
  | loading_model
  | processing
  | success
  | error
deriving DecidableEq

/-- Platform Blob: a list of opaque byte chunks plus a content type. -/
structure Blob where
  parts : List (List Nat)
  type : String
deriving DecidableEq

/-- AudioData interface (types.ts): the AudioPayload of the spec. -/
structure AudioData where
  blob : Blob
  base64 : String
  mimeType : String
deriving DecidableEq

namespace AppMain

/-- The React state of App.tsx that the session machine mutates. -/
structure Session where
  status : AppState
  audioData : Option AudioData
  result : Option TranscriptionResponse
  error : Option String
deriving DecidableEq

/-- Resolution of the awaited transcribeAudio promise: a parsed response
or a thrown error whose message may be absent. -/
inductive TranscribeOutcome where
  | ok (data : TranscriptionResponse)
  | err (message : Option String)
deriving DecidableEq

/-- The session-mutating events of App.tsx: handleAudioReady, the
synchronous start of handleTranscribe, the resumption of handleTranscribe
when the awaited call settles, and handleReset. -/
inductive AppEvent where
  | audioReady (d : AudioData)
  | transcribeStart
  | transcribeResolve (o : TranscribeOutcome)
  | reset
deriving DecidableEq

/-- App.tsx line 58: fallback when the thrown error has no message. -/
def fallbackErrorMessage : String :=
  "An unexpected error occurred during transcription."

/-- JS err.message or the fallback (undefined and the empty string are
both falsy). -/
def errMessageText (message : Option String) : String :=
  match message with
  | none => fallbackErrorMessage
  | some s => if s = "" then fallbackErrorMessage else s

/-- One step of the App.tsx session machine (lines 39-68).  The
transcribeResolve branches apply the setter calls of lines 54-55 and
58-59 to whatever the current state is: the closure performs no check
that the session still awaits this request. -/
def step (s : Session) : AppEvent → Session
  | .audioReady d =>
    { s with audioData := some d, error := none, result := none, status := .idle }
  | .transcribeStart =>
    if s.audioData.isNone then s
    else { s with status := .processing, error := none }
  | .transcribeResolve o =>
    match o with
    | .ok data => { s with result := some data, status := .success }
    | .err message => { s with error := some (errMessageText message), status := .error }
  | .reset =>
    { s with audioData := none, result := none, status := .idle, error := none }

end AppMain

namespace AppLive

/-- The liveTranscript state of the part_001 App variant (line 22). -/
structure LiveTranscript where
  final : String
  interim : String
deriving DecidableEq

/-- The React state of the part_001 App variant touched by handleReset. -/
structure Session where
  status : AppState
  audioData : Option AudioData
  result : Option TranscriptionResponse
  error : Option String
  liveTranscript : LiveTranscript
deriving DecidableEq

/-- part_001 lines 96-102: handleReset sets every field to its cleared
value, ignoring the previous state. -/
def handleReset (_ : Session) : Session :=
  { status := .idle
    audioData := none
    result := none
    error := none
    liveTranscript := { final := "", interim := "" } }

end AppLive

namespace GeminiService

/-- services/geminiService.ts line 46: the inlineData mimeType of the
outbound request is the raw mimeType argument, forwarded unmodified. -/
def requestMimeType (mimeType : String) : String := mimeType

end GeminiService

namespace GeminiV2

/-- JS String.split with a one-character separator, on character lists;
always returns at least one piece. -/
def jsSplitChar (sep : Char) : List Char → List (List Char)
  | [] => [[]]
  | c :: rest =>
    let r := jsSplitChar sep rest
    if c = sep then [] :: r
    else (c :: r.headD []) :: r.tail

/-- part_002 line 34: cleanMimeType = mimeType.split(';')[0]. -/
def cleanMimeType (mimeType : String) : String :=
  String.mk ((jsSplitChar ';' mimeType.data).headD [])

/-- Whitespace for the purposes of JS String.prototype.trim. -/
def isJsWs (c : Char) : Bool :=
  c = ' ' ∨ c = '\n' ∨ c = '\t' ∨ c = '\r'

/-- JS String.prototype.trim: strip whitespace from both ends. -/
def jsTrim (s : String) : String :=
  String.mk (((s.data.dropWhile isJsWs).reverse.dropWhile isJsWs).reverse)

/-- part_003 line 101: message thrown when response.text is falsy. -/
def emptyResponseMessage : String :=
  "The AI model returned an empty response. The audio might be unsupported or too short."

/-- part_003 line 108: message thrown when JSON.parse throws. -/
def formatErrorMessage : String :=
  "Failed to interpret the transcription format. Please try again."

/-- part_003 lines 99-109: the response-handling tail of transcribeAudio.
A falsy response.text (absent or empty) raises the empty-response error;
otherwise the trimmed text is passed to JSON.parse, whose failure raises
the result-format error and whose success is returned as-is — the `as
TranscriptionResponse` cast performs no runtime field validation. -/
def handleResponseText (text : Option String) : Except String Json :=
  match text with
  | none => .error emptyResponseMessage
  | some t =>
    if t = "" then .error emptyResponseMessage
    else
      match parseJson (jsTrim t) with
      | none => .error formatErrorMessage
      | some v => .ok v

/-- The segment fields listed as required in the outbound responseSchema
(part_003 line 88, geminiService.ts line 82). -/
def segmentRequiredFields : List String :=
  ["speaker", "timestamp", "content", "language", "language_code", "emotion"]

/-- Whether a parsed segment object carries every required field. -/
def segmentHasRequiredFields (seg : Json) : Bool :=
  segmentRequiredFields.all (fun key => (seg.getField key).isSome)

end GeminiV2

namespace AudioRecorder

/-- components/AudioRecorder.tsx lines 102-106: the recorder encoding is
chosen by probing isTypeSupported on audio/webm then audio/mp4, with
audio/ogg as the final fallback. -/
def pickMimeType (isTypeSupported : String → Bool) : String :=
  if isTypeSupported ("audio/webm") then "audio/webm"
  else if isTypeSupported ("audio/mp4") then "audio/mp4"
  else "audio/ogg"

/-- The fixed preference order the source probes. -/
def mimePreference : List String := ["audio/webm", "audio/mp4", "audio/ogg"]

/-- lines 116-122: the onstop handler builds one Blob from the collected
chunks tagged with the chosen mimeType, base64-encodes it (the FileReader
encoding is abstracted as a function argument) and yields the AudioData
passed to onAudioCaptured. -/
def onStopPayload (mimeType : String) (chunks : List (List Nat))
    (base64Of : Blob → String) : AudioData :=
  let blob : Blob := { parts := chunks, type := mimeType }
  { blob := blob, base64 := base64Of blob, mimeType := mimeType }

/-- One entry of the event.results slice visited by the onresult loop. -/
structure SpeechResult where
  isFinal : Bool
  transcript : String
deriving DecidableEq

/-- lines 66-76: the loop accumulating finalBatch (first component) and
interimTranscript (second component) over the visited results. -/
def collectEvent (results : List SpeechResult) : String × String :=
  results.foldl
    (fun acc r =>
      if r.isFinal then (acc.1 ++ r.transcript, acc.2) else (acc.1, acc.2 ++ r.transcript))
    ("", "")

/-- The snapshot pushed to onLiveUpdate (line 83). -/
structure LiveUpdate where
  final : String
  interim : String
deriving DecidableEq

/-- lines 65-88: the onresult handler.  Takes the current
finalTranscriptRef and the results of the event; finalBatch is appended with a
trailing space only when it is non-empty (the truthiness check of line 78),
and the update carries the new final text and the wholesale-replaced
interim text.  Returns the new finalTranscriptRef and the LiveUpdate. -/
def onResult (finalTranscriptRef : String) (results : List SpeechResult) :
    String × LiveUpdate :=
  let finalBatch := (collectEvent results).1
  let interimTranscript := (collectEvent results).2
  let newRef :=
    if finalBatch = "" then finalTranscriptRef
    else finalTranscriptRef ++ finalBatch ++ " "
  (newRef, { final := newRef, interim := interimTranscript })

end AudioRecorder

namespace WhisperService

/-- The pipeline instance cached in the module-level transcriber variable
(whisperService.ts line 9). -/
structure Transcriber where
  model : String
deriving DecidableEq

/-- whisperService.ts line 28: the model loaded on first use. -/
def whisperModelId : String := "Xenova/whisper-tiny.en"

/-- A decoded AudioBuffer: one float sample list per channel.  Samples
are modelled as rationals; the claims settled here concern which channels
are combined and how many samples result, not float rounding. -/
structure AudioBuffer where
  channels : List (List ℚ)

/-- AudioBuffer.numberOfChannels. -/
def AudioBuffer.numberOfChannels (buf : AudioBuffer) : Nat := buf.channels.length

/-- AudioBuffer.getChannelData. -/
def AudioBuffer.getChannelData (buf : AudioBuffer) (i : Nat) : List ℚ :=
  buf.channels.getD i []

/-- whisperService.ts lines 42-50: float32Data is channel 0; when the
buffer has more than one channel, a mono array of the same length is
built whose i-th entry is (channel0[i] + channel1[i]) / 2. -/
def downmixMono (buf : AudioBuffer) : List ℚ :=
  let float32Data := buf.getChannelData 0
  if 1 < buf.numberOfChannels then
    let channel2 := buf.getChannelData 1
    (List.range float32Data.length).map
      (fun i => (float32Data.getD i 0 + channel2.getD i 0) / 2)
  else float32Data

/-- Stated from the words of the specification for comparison with
downmixMono: the sample-wise average over ALL channels of the buffer
("channels are averaged sample-wise into one channel"). -/
def specMonoAverageAllChannels (buf : AudioBuffer) : List ℚ :=
  (List.range (buf.getChannelData 0).length).map
    (fun i => (buf.channels.map (fun c => c.getD i 0)).sum / (buf.numberOfChannels : ℚ))

/-- JS String.padStart(2, '0'). -/
def padStart2 (s : String) : String :=
  if s.length = 0 then "00" else if s.length = 1 then "0" ++ s else s

/-- whisperService.ts lines 75-80, on nonnegative finite seconds (the
NaN/null guard of line 76 has no counterpart for rational inputs). -/
def formatTimestamp (seconds : ℚ) : String :=
  let t := seconds.floor.toNat
  padStart2 (toString (t / 60)) ++ ":" ++ padStart2 (toString (t % 60))

/-- One chunk of the raw transcriber output (text plus start time). -/
structure Chunk where
  text : String
  timestampStart : ℚ

/-- whisperService.ts line 59. -/
def localSummary : String :=
  "Transcription generated locally using OpenAI Whisper (Tiny). Your data stayed on your device."

/-- whisperService.ts line 71: the single message every caught failure is
replaced with. -/
def localInitErrorMessage : String :=
  "Local AI failed to initialize. Make sure you have enough disk space for the AI model (approx 40MB)."

/-- whisperService.ts lines 60-67: mapping one raw chunk to a segment. -/
def mkSegment (chunk : Chunk) : TranscriptionSegment :=
  { speaker := "Speaker"
    timestamp := formatTimestamp chunk.timestampStart
    content := chunk.text.trim
    language := "English"
    language_code := "en"
    translation := none
    emotion := some .Neutral }

/-- Outcomes of the external operations awaited inside transcribeLocally:
pipeline construction, decodeAudioData, and the transcriber inference
call (given the downmixed samples). -/
structure Env where
  pipelineResult : Except String Transcriber
  decodeResult : Except String AudioBuffer
  inferResult : List ℚ → Except String (List Chunk)

/-- whisperService.ts lines 37-68: the part of transcribeLocally that
runs once the transcriber is available.  Any stage failure is caught by
the surrounding try/catch (lines 69-72) and replaced with the fixed
localInitErrorMessage. -/
def runAfterInit (env : Env) : Except String TranscriptionResponse :=
  match env.decodeResult with
  | .error _ => .error localInitErrorMessage
  | .ok audioBuffer =>
    match env.inferResult (downmixMono audioBuffer) with
    | .error _ => .error localInitErrorMessage
    | .ok chunks => .ok { summary := localSummary, segments := chunks.map mkSegment }

/-- whisperService.ts lines 15-73 as explicit state passing over the
module-level transcriber cache (line 9).  Returns the new cache contents,
whether the pipeline was constructed during this call (the only window in
which the initialization progress callback can fire, lines 28-34), and
the outcome of the call.  When pipeline construction throws, the cache keeps
its null value and the catch yields the fixed message. -/
def transcribeLocally (transcriber : Option Transcriber) (env : Env) :
    Option Transcriber × Bool × Except String TranscriptionResponse :=
  match transcriber with
  | some t => (some t, false, runAfterInit env)
  | none =>
    match env.pipelineResult with
    | .error _ => (none, true, .error localInitErrorMessage)
    | .ok t => (some t, true, runAfterInit env)

end WhisperService

/-- A concrete AudioPayload used in closed statements. -/
def samplePayload : AudioData :=
  { blob := { parts := [[0]], type := "audio/webm" }
    base64 := "AAAA"
    mimeType := "audio/webm" }

/-- A concrete transcription response used in closed statements. -/
def sampleResponse : TranscriptionResponse :=
  { summary := "s", segments := [] }

/-- An idle session holding the sample payload. -/
def sampleIdleSession : AppMain.Session :=
  { status := .idle, audioData := some samplePayload, result := none, error := none }

/-- A concrete response text that parses as JSON but whose single segment
carries only the speaker field. -/
def missingFieldResponseText : String :=
  "\x7b\"summary\":\"hi\",\"segments\":[\x7b\"speaker\":\"A\"\x7d]\x7d"

/-- A concrete transcriber instance. -/
def sampleTranscriber : WhisperService.Transcriber :=
  { model := WhisperService.whisperModelId }

/-- An environment in which every stage of the local client succeeds. -/
def envInitOk : WhisperService.Env :=
  { pipelineResult := .ok sampleTranscriber
    decodeResult := .ok { channels := [[0]] }
    inferResult := fun _ => .ok [] }

/-- An environment in which pipeline construction fails. -/
def envInitFail : WhisperService.Env :=
  { pipelineResult := .error ("download failed")
    decodeResult := .ok { channels := [[0]] }
    inferResult := fun _ => .ok [] }

/-- A three-channel buffer exposing which channels the downmix reads. -/
def threeChannelBuffer : WhisperService.AudioBuffer :=
  { channels := [[0], [0], [1]] }

/-- A two-channel buffer with two samples per channel. -/
def twoChannelBuffer : WhisperService.AudioBuffer :=
  { channels := [[1, 3], [3, 5]] }

example : parseJson ("\x7b\"summary\":\"hi\",\"segments\":[]\x7d") =
    some (.obj [("summary", .str ("hi")), ("segments", .arr [])]) := rfl

example : parseJson ("[1, -2, true, false, null, \"x\"]") =
    some (.arr [.num 1, .num (-2), .bool true, .bool false, .null, .str ("x")]) := rfl

example : parseJson (" \x7b \"a\" : [ \x7b \"b\" : 1 \x7d , 2 ] \x7d ") =
    some (.obj [("a", .arr [.obj [("b", .num 1)], .num 2])]) := rfl

example : parseJson ("notjson") = none := rfl

/-- C1: for a transcription attempt started with a non-null AudioPayload,
the resolution of the transcribe call always lands the session in exactly
one of Success and Error: a client result sets the result and moves to
Success, a client failure sets an error description and moves to Error. -/
theorem transcribe_resolution_reaches_exactly_one_terminal
    (s : AppMain.Session) (d : AudioData) (o : AppMain.TranscribeOutcome)
    (_h : s.audioData = some d) :
    ((AppMain.step (AppMain.step s .transcribeStart) (.transcribeResolve o)).status = .success ∨
      (AppMain.step (AppMain.step s .transcribeStart) (.transcribeResolve o)).status = .error) ∧
    ¬ ((AppMain.step (AppMain.step s .transcribeStart) (.transcribeResolve o)).status = .success ∧
        (AppMain.step (AppMain.step s .transcribeStart) (.transcribeResolve o)).status = .error) ∧
    (∀ r, o = .ok r →
      (AppMain.step (AppMain.step s .transcribeStart) (.transcribeResolve o)).status = .success ∧
      (AppMain.step (AppMain.step s .transcribeStart) (.transcribeResolve o)).result = some r) ∧
    (∀ m, o = .err m →
      (AppMain.step (AppMain.step s .transcribeStart) (.transcribeResolve o)).status = .error ∧
      (AppMain.step (AppMain.step s .transcribeStart) (.transcribeResolve o)).error =
        some (AppMain.errMessageText m)) := by
  cases o <;> simp [AppMain.step]

/-- Witness for C1 at a concrete session, payload and successful outcome. -/
theorem transcribe_resolution_reaches_exactly_one_terminal_witness :
    (AppMain.step (AppMain.step sampleIdleSession .transcribeStart)
        (.transcribeResolve (.ok sampleResponse))).status = .success ∧
    (AppMain.step (AppMain.step sampleIdleSession .transcribeStart)
        (.transcribeResolve (.ok sampleResponse))).result = some sampleResponse :=
  (transcribe_resolution_reaches_exactly_one_terminal sampleIdleSession samplePayload
      (.ok sampleResponse) rfl).2.2.1 sampleResponse rfl

/-- C2: evaluation of the App.tsx session machine at the failing trace —
the user resets while a transcription request is pending, yet when the
request resolves its handler still writes the stale result and moves the
session to Success instead of leaving it Idle. -/
theorem stale_resolution_overwrites_reset_state :
    (AppMain.step (AppMain.step sampleIdleSession .transcribeStart) .reset).status = .idle ∧
    (AppMain.step (AppMain.step (AppMain.step sampleIdleSession .transcribeStart) .reset)
        (.transcribeResolve (.ok sampleResponse))).status = .success ∧
    (AppMain.step (AppMain.step (AppMain.step sampleIdleSession .transcribeStart) .reset)
        (.transcribeResolve (.ok sampleResponse))).status ≠ .idle ∧
    (AppMain.step (AppMain.step (AppMain.step sampleIdleSession .transcribeStart) .reset)
        (.transcribeResolve (.ok sampleResponse))).result = some sampleResponse :=
  ⟨rfl, rfl, by decide, rfl⟩

/-- C4: invoking the part_001 reset from any state yields Idle with null
payload, null result, null error and an empty LiveTranscriptBuffer, and a
second reset changes nothing. -/
theorem reset_idempotent_and_clears_all (s : AppLive.Session) :
    AppLive.handleReset s =
      { status := .idle
        audioData := none
        result := none
        error := none
        liveTranscript := { final := "", interim := "" } } ∧
    AppLive.handleReset (AppLive.handleReset s) = AppLive.handleReset s :=
  ⟨rfl, rfl⟩

/-- C3 counterexample: this response text parses as JSON although its
single segment carries only the speaker field; the client returns the
partially-populated value instead of failing with a result-format
error. -/
theorem parsed_response_missing_fields_returned_ok :
    GeminiV2.handleResponseText (some missingFieldResponseText) =
      .ok (.obj [("summary", .str ("hi")),
                 ("segments", .arr [.obj [("speaker", .str ("A"))]])]) ∧
    GeminiV2.segmentHasRequiredFields (.obj [("speaker", .str ("A"))]) = false :=
  ⟨rfl, rfl⟩

/-- C3 (amended): client-side, the result-format error is raised exactly
when the trimmed non-empty response text fails to parse as JSON; every
parsed value is returned as-is, with no validation of the required
segment fields (those are only declared in the outbound request
schema). -/
theorem format_error_iff_parse_fails (t : String) (h : t ≠ "") :
    (GeminiV2.handleResponseText (some t) = .error GeminiV2.formatErrorMessage ↔
      parseJson (GeminiV2.jsTrim t) = none) ∧
    ∀ v, parseJson (GeminiV2.jsTrim t) = some v → GeminiV2.handleResponseText (some t) = .ok v := by
  constructor
  · constructor
    · intro he
      cases hp : parseJson (GeminiV2.jsTrim t) with
      | none => rfl
      | some v => simp [GeminiV2.handleResponseText, h, hp] at he
    · intro hp
      simp [GeminiV2.handleResponseText, h, hp]
  · intro v hp
    simp [GeminiV2.handleResponseText, h, hp]

/-- Witness for C3 (amended) at a concrete unparseable response text. -/
theorem format_error_iff_parse_fails_witness :
    GeminiV2.handleResponseText (some ("notjson")) =
      .error GeminiV2.formatErrorMessage :=
  (format_error_iff_parse_fails ("notjson") (by decide)).1.mpr rfl

/-- C5: when the first transcribeLocally call constructs the pipeline
successfully, the module-level cache holds that instance, the progress
window was open only on that first call, and every later call reuses the
cached instance without the initialization progress callback firing. -/
theorem transcriber_initialized_at_most_once
    (env env₂ : WhisperService.Env) (t : WhisperService.Transcriber)
    (h : env.pipelineResult = .ok t) :
    (WhisperService.transcribeLocally none env).1 = some t ∧
    (WhisperService.transcribeLocally none env).2.1 = true ∧
    (WhisperService.transcribeLocally ((WhisperService.transcribeLocally none env).1) env₂).1 =
      some t ∧
    (WhisperService.transcribeLocally ((WhisperService.transcribeLocally none env).1) env₂).2.1 =
      false := by
  simp [WhisperService.transcribeLocally, h]

/-- Witness for C5: two concrete calls in one process lifetime. -/
theorem transcriber_initialized_at_most_once_witness :
    (WhisperService.transcribeLocally none envInitOk).2.1 = true ∧
    (WhisperService.transcribeLocally
        ((WhisperService.transcribeLocally none envInitOk).1) envInitOk).2.1 = false := by
  have h := transcriber_initialized_at_most_once envInitOk envInitOk sampleTranscriber rfl
  exact ⟨h.2.1, h.2.2.2⟩

/-- C6 counterexample: on a three-channel buffer the code averages only
the first two channels, so its output differs from the all-channel
sample-wise average the claim states. -/
theorem downmix_differs_from_all_channel_average :
    WhisperService.downmixMono threeChannelBuffer = [0] ∧
    WhisperService.specMonoAverageAllChannels threeChannelBuffer = [1 / 3] ∧
    WhisperService.downmixMono threeChannelBuffer ≠
      WhisperService.specMonoAverageAllChannels threeChannelBuffer := by
  refine ⟨?_, ?_, ?_⟩ <;>
    norm_num [WhisperService.downmixMono, WhisperService.specMonoAverageAllChannels,
      WhisperService.AudioBuffer.getChannelData, WhisperService.AudioBuffer.numberOfChannels,
      threeChannelBuffer, List.range_succ]

/-- C6 (amended): for a decoded buffer whose channels all have n samples,
the downmix has n samples, and on multi-channel input each output sample
is the average of the samples of the FIRST TWO channels at that index (channels
beyond the second are ignored by the code). -/
theorem downmix_length_and_first_two_average
    (buf : WhisperService.AudioBuffer) (n : Nat)
    (hlen : ∀ c ∈ buf.channels, c.length = n) (hne : buf.channels ≠ []) :
    (WhisperService.downmixMono buf).length = n ∧
    (1 < buf.numberOfChannels →
      ∀ i, i < n →
        (WhisperService.downmixMono buf).getD i 0 =
          ((buf.getChannelData 0).getD i 0 + (buf.getChannelData 1).getD i 0) / 2) := by
  obtain ⟨c0, rest, hc⟩ : ∃ c0 rest, buf.channels = c0 :: rest := by
    cases hch : buf.channels with
    | nil => exact absurd hch hne
    | cons a l => exact ⟨a, l, rfl⟩
  have hc0 : buf.getChannelData 0 = c0 := by
    simp [WhisperService.AudioBuffer.getChannelData, hc]
  have hc0len : c0.length = n := hlen c0 (by simp [hc])
  constructor
  · by_cases hm : 1 < buf.numberOfChannels
    · simp [WhisperService.downmixMono, hm, hc0, hc0len]
    · simp [WhisperService.downmixMono, hm, hc0, hc0len]
  · intro hm i hi
    have hi0 : i < (buf.getChannelData 0).length := by rw [hc0, hc0len]; exact hi
    simp only [WhisperService.downmixMono, hm, if_true]
    rw [List.getD_eq_getElem?_getD, List.getElem?_map, List.getElem?_range hi0]
    simp

/-- Witness for C6 (amended) on a concrete two-channel buffer. -/
theorem downmix_length_and_first_two_average_witness :
    (WhisperService.downmixMono twoChannelBuffer).length = 2 ∧
    (WhisperService.downmixMono twoChannelBuffer).getD 0 0 =
      ((twoChannelBuffer.getChannelData 0).getD 0 0 +
        (twoChannelBuffer.getChannelData 1).getD 0 0) / 2 := by
  have h := downmix_length_and_first_two_average twoChannelBuffer 2
    (by intro c hc; simp [twoChannelBuffer] at hc; rcases hc with h1 | h1 <;> rw [h1] <;> rfl)
    (by simp [twoChannelBuffer])
  exact ⟨h.1, h.2 (by decide) 0 (by decide)⟩

/-- The first piece of a character-level split never contains the
separator: it is the maximal separator-free leading run. -/
theorem jsSplitChar_headD (sep : Char) (s : List Char) :
    (GeminiV2.jsSplitChar sep s).headD [] = s.takeWhile (fun c => c != sep) := by
  induction s with
  | nil => rfl
  | cons c rest ih =>
    by_cases hc : c = sep
    · simp [GeminiV2.jsSplitChar, hc, List.takeWhile_cons]
    · have hb : (c != sep) = true := by simp [hc]
      simp only [List.headD_eq_head?_getD] at ih
      simp [GeminiV2.jsSplitChar, hc, List.takeWhile_cons, hb, ih]

/-- C7 counterexample: services/geminiService.ts embeds the raw mimeType
argument; with a codec-parameter suffix present the encoding identifier
sent to the cloud API still contains it, unlike the stripped form. -/
theorem raw_mime_type_keeps_codec_suffix :
    GeminiService.requestMimeType ("audio/webm;codecs=opus") = "audio/webm;codecs=opus" ∧
    ';' ∈ (GeminiService.requestMimeType ("audio/webm;codecs=opus")).data ∧
    GeminiService.requestMimeType ("audio/webm;codecs=opus") ≠
      GeminiV2.cleanMimeType ("audio/webm;codecs=opus") := by
  refine ⟨rfl, ?_, ?_⟩ <;> decide

/-- C7 (amended): the variants defining cleanMimeType strip everything
from the first semicolon on, so the identifier they embed never contains
a codec parameter; services/geminiService.ts forwards the mime type
unmodified. -/
theorem clean_mime_type_strips_codec_suffix (m : String) :
    (∀ c ∈ (GeminiV2.cleanMimeType m).data, c ≠ ';') ∧
    GeminiService.requestMimeType m = m := by
  refine ⟨?_, rfl⟩
  intro c hc
  have hdata : (GeminiV2.cleanMimeType m).data = m.data.takeWhile (fun c => c != ';') := by
    unfold GeminiV2.cleanMimeType
    rw [jsSplitChar_headD]
  rw [hdata] at hc
  have := List.mem_takeWhile_imp hc
  simpa using this

/-- Witness for C7 (amended) at a concrete codec-parameter mime type. -/
theorem clean_mime_type_strips_codec_suffix_witness :
    GeminiV2.cleanMimeType ("audio/webm;codecs=opus") = "audio/webm" ∧
    (';' ∈ (GeminiV2.cleanMimeType ("audio/webm;codecs=opus")).data → False) := by
  have h := clean_mime_type_strips_codec_suffix ("audio/webm;codecs=opus")
  exact ⟨rfl, fun hc => h.1 ';' hc rfl⟩

/-- C8: the capture encoding is the first isTypeSupported entry of the
fixed preference list webm, mp4, ogg (whenever some entry is supported),
and the AudioPayload yielded on stop carries exactly the chosen tag in
its mimeType field and in the type field of its blob. -/
theorem chosen_mime_first_supported (sup : String → Bool)
    (h : AudioRecorder.mimePreference.any sup = true) :
    AudioRecorder.pickMimeType sup = (AudioRecorder.mimePreference.find? sup).getD ("") ∧
    ∀ chunks base64Of,
      (AudioRecorder.onStopPayload (AudioRecorder.pickMimeType sup) chunks base64Of).mimeType =
        AudioRecorder.pickMimeType sup ∧
      (AudioRecorder.onStopPayload
          (AudioRecorder.pickMimeType sup) chunks base64Of).blob.type =
        AudioRecorder.pickMimeType sup := by
  constructor
  · cases hw : sup ("audio/webm") <;> cases hm : sup ("audio/mp4") <;>
      cases ho : sup ("audio/ogg") <;>
      simp_all [AudioRecorder.pickMimeType, AudioRecorder.mimePreference, List.find?]
  · intro chunks base64Of
    exact ⟨rfl, rfl⟩

/-- Witness for C8 with a platform supporting only audio/mp4. -/
theorem chosen_mime_first_supported_witness :
    AudioRecorder.pickMimeType (fun s => s == "audio/mp4") =
      ((AudioRecorder.mimePreference.find? (fun s => s == "audio/mp4")).getD "") ∧
    (AudioRecorder.onStopPayload
        (AudioRecorder.pickMimeType (fun s => s == "audio/mp4"))
        [[1]] (fun _ => "AAAA")).mimeType =
      AudioRecorder.pickMimeType (fun s => s == "audio/mp4") := by
  have h := chosen_mime_first_supported (fun s => s == "audio/mp4") (by decide)
  exact ⟨h.1, (h.2 [[1]] (fun _ => "AAAA")).1⟩

/-- C9 counterexample: an event carrying only an interim hypothesis has
an empty finalized batch; the handler leaves the final text unchanged
instead of extending it by the (empty) batch plus a trailing separator as
the equation of the claim states. -/
theorem interim_only_event_appends_no_separator :
    (AudioRecorder.onResult ("hello ") [{ isFinal := false, transcript := "wor" }]).1 =
      "hello " ∧
    (AudioRecorder.collectEvent [{ isFinal := false, transcript := "wor" }]).1 = "" ∧
    (AudioRecorder.onResult ("hello ") [{ isFinal := false, transcript := "wor" }]).1 ≠
      "hello " ++ (AudioRecorder.collectEvent [{ isFinal := false, transcript := "wor" }]).1
        ++ " " := by
  refine ⟨rfl, rfl, by decide⟩

/-- C9 (amended): every recognition event replaces the interim text
wholesale with the interim hypothesis of the event and only ever extends the
final text: by the finalized batch plus a trailing space separator when
the batch is non-empty, and by nothing when the event finalized nothing. -/
theorem live_buffer_append_only_interim_replaced
    (finalRef : String) (results : List AudioRecorder.SpeechResult) :
    (AudioRecorder.onResult finalRef results).2.interim =
      (AudioRecorder.collectEvent results).2 ∧
    (AudioRecorder.onResult finalRef results).2.final =
      (AudioRecorder.onResult finalRef results).1 ∧
    (∃ suffix, (AudioRecorder.onResult finalRef results).1 = finalRef ++ suffix) ∧
    ((AudioRecorder.collectEvent results).1 ≠ "" →
      (AudioRecorder.onResult finalRef results).1 =
        finalRef ++ (AudioRecorder.collectEvent results).1 ++ " ") ∧
    ((AudioRecorder.collectEvent results).1 = "" →
      (AudioRecorder.onResult finalRef results).1 = finalRef) := by
  by_cases hb : (AudioRecorder.collectEvent results).1 = ""
  · have h1 : (AudioRecorder.onResult finalRef results).1 = finalRef := by
      unfold AudioRecorder.onResult
      simp [hb]
    exact ⟨rfl, rfl, ⟨"", by rw [h1]; simp⟩, fun hne => absurd hb hne, fun _ => h1⟩
  · have h1 : (AudioRecorder.onResult finalRef results).1 =
        finalRef ++ (AudioRecorder.collectEvent results).1 ++ " " := by
      unfold AudioRecorder.onResult
      simp [hb]
    exact ⟨rfl, rfl,
      ⟨(AudioRecorder.collectEvent results).1 ++ " ", by rw [h1, String.append_assoc]⟩,
      fun _ => h1, fun he => absurd he hb⟩

/-- Witness for C9 (amended) at a concrete finalizing event. -/
theorem live_buffer_append_only_interim_replaced_witness :
    (AudioRecorder.onResult ("a ") [{ isFinal := true, transcript := "b" }]).1 =
      "a " ++ "b" ++ " " ∧
    (AudioRecorder.onResult ("a ") [{ isFinal := true, transcript := "b" }]).2.interim = "" := by
  have h := live_buffer_append_only_interim_replaced ("a ") [{ isFinal := true, transcript := "b" }]
  exact ⟨h.2.2.2.1 (by decide), h.1.trans rfl⟩

/-- Any failing run of the post-initialization stages reports the fixed
initialization message. -/
theorem runAfterInit_fail (env : WhisperService.Env) (e : String)
    (he : WhisperService.runAfterInit env = .error e) :
    WhisperService.runAfterInit env = .error WhisperService.localInitErrorMessage := by
  unfold WhisperService.runAfterInit at he ⊢
  cases hd : env.decodeResult with
  | error msg => simp [hd]
  | ok audioBuffer =>
    cases hi : env.inferResult (WhisperService.downmixMono audioBuffer) with
    | error msg => simp [hd, hi]
    | ok chunks => simp [hd, hi] at he

/-- C10: every failure of transcribeLocally, whatever stage caused it, is
surfaced as the single fixed model-initialization message, so callers
cannot tell a decode or inference failure from an initialization one. -/
theorem local_failures_single_fixed_message
    (transcriber : Option WhisperService.Transcriber) (env : WhisperService.Env)
    (h : ∃ e, (WhisperService.transcribeLocally transcriber env).2.2 = .error e) :
    (WhisperService.transcribeLocally transcriber env).2.2 =
      .error WhisperService.localInitErrorMessage := by
  obtain ⟨e, he⟩ := h
  cases transcriber with
  | some t =>
    simp only [WhisperService.transcribeLocally] at he ⊢
    exact runAfterInit_fail env e he
  | none =>
    cases hp : env.pipelineResult with
    | error msg => simp [WhisperService.transcribeLocally, hp]
    | ok t =>
      simp only [WhisperService.transcribeLocally, hp] at he ⊢
      exact runAfterInit_fail env e he

/-- Witness for C10 at a concrete initialization failure. -/
theorem local_failures_single_fixed_message_witness :
    (WhisperService.transcribeLocally none envInitFail).2.2 =
      .error WhisperService.localInitErrorMessage :=
  local_failures_single_fixed_message none envInitFail
    ⟨WhisperService.localInitErrorMessage, rfl⟩
